import Mathlib

/-!
Shallow embedding of `src/misc/image.c` (the `image_handler_t` wrapper for
image reading/writing).

The embedded code is `ImageRead` (lines 90-169), the write stubs `ImageWrite`
(206-211) and `ImageWriteUrl` (213-218), the buffer callback
`video_new_buffer` (231-253), and the engine constructors `CreateDecoder`
(270-309) and `CreateFilter` (323-350).

External collaborators (the decoder module found by `module_Need`, the
"video filter2" module, `vout_AllocatePicture`, `mdate`) are modelled by an
environment record `Env` of pure functions.  Side effects on engines that in
C happen by in-place pointer mutation are modelled by explicit state passing,
and the lifecycle calls the orchestrator makes (create/delete of engines,
decode invocations, filter invocations, picture releases) are recorded in an
event trace so that "created exactly once" style properties can be stated.
-/

/-- Struct `video_format_t`: the fields of the C struct that `image.c` reads or
writes (`i_chroma`, `i_width`, `i_height`, `i_aspect`). -/
structure video_format_t where
  i_chroma : Nat
  i_width : Nat
  i_height : Nat
  i_aspect : Nat
  deriving DecidableEq, Repr

/-- Struct `es_format_t`: the fields `image.c` uses (`i_codec` and the embedded
`video` format). -/
structure es_format_t where
  i_codec : Nat
  video : video_format_t
  deriving DecidableEq, Repr

/-- The zero-initialised `es_format_t` (`null_es_format` in `CreateDecoder`). -/
def es_null : es_format_t :=
  { i_codec := 0, video := { i_chroma := 0, i_width := 0, i_height := 0, i_aspect := 0 } }

/-- Struct `block_t`: compressed payload.  `id` stands for the buffer identity; the
timestamps are the two fields `ImageRead` writes (line 111). -/
structure block_t where
  id : Nat
  i_pts : Int
  i_dts : Int
  deriving DecidableEq, Repr

/-- Struct `picture_t`: `id` stands for the identity of the allocated picture. -/
structure picture_t where
  id : Nat
  deriving DecidableEq, Repr

/-- Struct `decoder_t`: the fields of the decoder object that `image.c` reads or
writes: negotiated input and output formats. -/
structure decoder_t where
  fmt_in : es_format_t
  fmt_out : es_format_t
  deriving DecidableEq, Repr

/-- Struct `filter_t`: negotiated input and output formats of the cached filter. -/
structure filter_t where
  fmt_in : es_format_t
  fmt_out : es_format_t
  deriving DecidableEq, Repr

/-- Struct `image_handler_t`: the two cached engine slots (`p_dec`, `p_filter`).
`p_parent` is only threaded through in C and is not modelled. -/
structure image_handler_t where
  p_dec : Option decoder_t
  p_filter : Option filter_t
  deriving DecidableEq, Repr

/-- The external collaborators of `image.c`, as pure functions:
`hasDecoderModule c` is whether `module_Need(p_dec, "decoder", "$codec", 0)`
succeeds for codec `c`; `decode` is the first `pf_decode_video` call (result
picture, and the decoder's `fmt_out` after the call, since the module mutates
it in place); `decode2` is the effect of the second, result-discarded call on
`fmt_out`; `hasFilterModule` is whether `module_Need(.., "video filter2", ..)`
succeeds; `filterRun` is `pf_video_filter` (result picture and the filter's
`fmt_out` after the call); `allocPlanes` is the `i_planes` count produced by
`vout_AllocatePicture`; `freshPic` names the picture `malloc` returns;
`now` is `mdate()`. -/
structure Env where
  hasDecoderModule : Nat → Bool
  decode : decoder_t → block_t → Option picture_t × es_format_t
  decode2 : decoder_t → block_t → es_format_t
  hasFilterModule : es_format_t → video_format_t → Bool
  filterRun : filter_t → picture_t → Option picture_t × es_format_t
  allocPlanes : Nat → Nat → Nat → Nat → Nat
  freshPic : Nat
  now : Int

/-- Lifecycle events the orchestrator performs, recorded in order. -/
inductive Event where
  | createDecoder (codec : Nat)
  | deleteDecoder
  | decodeCall (blk : Nat) (pts dts : Int)
  | deleteFilter
  | createFilter (fin : es_format_t) (fout : video_format_t)
  | filterCall (f : filter_t) (pic : Nat)
  | releasePic (pic : Nat)
  deriving DecidableEq, Repr

def isCreateDec : Event → Bool
  | Event.createDecoder _ => true
  | _ => false

def isDeleteDec : Event → Bool
  | Event.deleteDecoder => true
  | _ => false

def isCreateFil : Event → Bool
  | Event.createFilter _ _ => true
  | _ => false

def isDeleteFil : Event → Bool
  | Event.deleteFilter => true
  | _ => false

def isFilterCall : Event → Bool
  | Event.filterCall _ _ => true
  | _ => false

def isFilterCallOf (pid : Nat) : Event → Bool
  | Event.filterCall _ q => q == pid
  | _ => false

def isReleaseOf (pid : Nat) : Event → Bool
  | Event.releasePic q => q == pid
  | _ => false

/-- Function `CreateDecoder` (lines 270-309): builds a decoder whose `fmt_in.video` is
the requested format and `fmt_in.i_codec` is the format's chroma (lines
285-287), with `fmt_out` zeroed (line 284); returns `none` when no decoder
module is found (lines 297-306). -/
def CreateDecoder (env : Env) (fmt : video_format_t) : Option decoder_t :=
  let p_dec : decoder_t :=
    { fmt_in := { i_codec := fmt.i_chroma, video := fmt }, fmt_out := es_null }
  if env.hasDecoderModule fmt.i_chroma then some p_dec else none

/-- Function `CreateFilter` (lines 323-350): `fmt_in` is the decoder's output
`es_format_t`; `fmt_out` starts as a copy of `fmt_in` but its `i_codec` and
`video` are then overwritten from the requested output (lines 336-339), which
overwrites every modelled field; returns `none` when no "video filter2"
module is found (lines 342-347). -/
def CreateFilter (env : Env) (fmt_in : es_format_t) (fmt_out : video_format_t) :
    Option filter_t :=
  let p_filter : filter_t :=
    { fmt_in := fmt_in,
      fmt_out := { i_codec := fmt_out.i_chroma, video := fmt_out } }
  if env.hasFilterModule fmt_in fmt_out then some p_filter else none

/-- Function `video_new_buffer` (lines 231-253): sets the decoder's
`fmt_out.video.i_chroma` from `fmt_out.i_codec` (line 235), allocates the
picture, and fails (freeing the picture) when it has no planes (lines
242-246).  Returns the decoder state after the call together with the
picture, since the C function mutates `*p_dec`. -/
def video_new_buffer (env : Env) (p_dec : decoder_t) :
    decoder_t × Option picture_t :=
  let fo : es_format_t :=
    { p_dec.fmt_out with
      video := { p_dec.fmt_out.video with i_chroma := p_dec.fmt_out.i_codec } }
  let p_dec1 : decoder_t := { p_dec with fmt_out := fo }
  let planes :=
    env.allocPlanes fo.video.i_chroma fo.video.i_width fo.video.i_height fo.video.i_aspect
  if planes = 0 then (p_dec1, none) else (p_dec1, some { id := env.freshPic })

/-- Lines 96-109 of `ImageRead`: drop a cached decoder whose negotiated input
codec differs from the requested chroma (97-102), then create a decoder when
none is cached (105-108).  Returns the decoder now in `p_image->p_dec`
(`none` when creation failed) and the lifecycle events performed. -/
def decoderPhase (env : Env) (h : image_handler_t) (p_fmt_in : video_format_t) :
    Option decoder_t × List Event :=
  match h.p_dec with
  | some d =>
    if d.fmt_in.i_codec ≠ p_fmt_in.i_chroma then
      (CreateDecoder env p_fmt_in,
       [Event.deleteDecoder, Event.createDecoder p_fmt_in.i_chroma])
    else (some d, [])
  | none => (CreateDecoder env p_fmt_in, [Event.createDecoder p_fmt_in.i_chroma])

/-- Line 111: `p_block->i_pts = p_block->i_dts = mdate()`. -/
def stampBlock (env : Env) (b : block_t) : block_t :=
  { b with i_pts := env.now, i_dts := env.now }

/-- Lines 112-113: two consecutive `pf_decode_video` calls on the same
payload; the first call's picture is the one kept, and each call may update
the decoder's negotiated `fmt_out`. -/
def decodeStep (env : Env) (d : decoder_t) (b : block_t) :
    Option picture_t × decoder_t :=
  let r1 := env.decode d b
  let d1 : decoder_t := { d with fmt_out := r1.2 }
  let fo2 := env.decode2 d1 b
  (r1.1, { d1 with fmt_out := fo2 })

/-- Lines 121-126: fill each still-unspecified (zero) field of the requested
output format from the decoder's negotiated output. -/
def resolveFmt (p_fmt_out dec_out : video_format_t) : video_format_t :=
  { p_fmt_out with
    i_chroma := if p_fmt_out.i_chroma = 0 then dec_out.i_chroma else p_fmt_out.i_chroma,
    i_width := if p_fmt_out.i_width = 0 then dec_out.i_width else p_fmt_out.i_width,
    i_height := if p_fmt_out.i_height = 0 then dec_out.i_height else p_fmt_out.i_height }

/-- Line 129-131 condition: decoder output and requested output differ in
chroma, width or height. -/
def fmtDiffers (a b : video_format_t) : Bool :=
  a.i_chroma != b.i_chroma || a.i_width != b.i_width || a.i_height != b.i_height

/-- Lines 134-142 condition: the cached filter's negotiated input differs
from the decoder's output, or its negotiated output differs from the
requested output, in any of the six compared fields. -/
def filterMismatch (f : filter_t) (dec_out fo : video_format_t) : Bool :=
  f.fmt_in.video.i_chroma != dec_out.i_chroma ||
  f.fmt_in.video.i_width != dec_out.i_width ||
  f.fmt_in.video.i_height != dec_out.i_height ||
  f.fmt_out.video.i_chroma != fo.i_chroma ||
  f.fmt_out.video.i_width != fo.i_width ||
  f.fmt_out.video.i_height != fo.i_height

/-- Result of one `ImageRead` call: the handler state afterwards, the value
written back through `*p_fmt_out`, the returned picture, and the trace. -/
structure ReadResult where
  handler : image_handler_t
  fmt_out : video_format_t
  pic : Option picture_t
  trace : List Event
  deriving Repr

/-- Line 163-164: run the cached filter on the picture; `*p_fmt_out` is then
read back from the filter's (possibly module-updated) `fmt_out.video`. -/
def runFilter (env : Env) (h : image_handler_t) (f : filter_t) (pic : picture_t)
    (tr : List Event) : ReadResult :=
  let r := env.filterRun f pic
  { handler := { h with p_filter := some { f with fmt_out := r.2 } },
    fmt_out := r.2.video, pic := r.1,
    trace := tr ++ [Event.filterCall f pic.id] }

/-- Lines 150-161 of `ImageRead`, entered with an empty filter slot: create
the filter for (decoder output, resolved output); on failure release the
decoded picture and return null (lines 156-160), otherwise run the new
filter. -/
def startFilter (env : Env) (h : image_handler_t) (d2 : decoder_t)
    (pic : picture_t) (fo : video_format_t) (tr : List Event) : ReadResult :=
  match CreateFilter env d2.fmt_out fo with
  | none =>
    { handler := h, fmt_out := fo, pic := none,
      trace := tr ++ [Event.createFilter d2.fmt_out fo, Event.releasePic pic.id] }
  | some f =>
    runFilter env { h with p_filter := some f } f pic
      (tr ++ [Event.createFilter d2.fmt_out fo])

/-- Lines 121-168 of `ImageRead`, entered with the decoder `d2` in place and a
decoded picture in hand: resolve the output format, then either convert —
dropping a cached filter that mismatches in any of the six compared fields
(lines 133-147), creating one when the slot is empty (lines 150-161), and
running it (lines 163-164) — or return the raw decoder output (line 166). -/
def ImageReadConvert (env : Env) (h : image_handler_t) (d2 : decoder_t)
    (pic : picture_t) (p_fmt_out : video_format_t) (tr : List Event) : ReadResult :=
  let fo := resolveFmt p_fmt_out d2.fmt_out.video
  if fmtDiffers d2.fmt_out.video fo then
    match h.p_filter with
    | some f =>
      if filterMismatch f d2.fmt_out.video fo then
        startFilter env { h with p_filter := none } d2 pic fo (tr ++ [Event.deleteFilter])
      else runFilter env h f pic tr
    | none => startFilter env h d2 pic fo tr
  else
    { handler := h, fmt_out := d2.fmt_out.video, pic := some pic, trace := tr }

/-- Function `ImageRead` (lines 90-169). -/
def ImageRead (env : Env) (h : image_handler_t) (p_block : block_t)
    (p_fmt_in p_fmt_out : video_format_t) : ReadResult :=
  match decoderPhase env h p_fmt_in with
  | (none, tr) =>
    { handler := { h with p_dec := none }, fmt_out := p_fmt_out, pic := none, trace := tr }
  | (some d, tr) =>
    let b1 := stampBlock env p_block
    let r := decodeStep env d b1
    let tr := tr ++ [Event.decodeCall p_block.id env.now env.now,
                     Event.decodeCall p_block.id env.now env.now]
    match r.1 with
    | none =>
      { handler := { h with p_dec := some r.2 }, fmt_out := p_fmt_out, pic := none,
        trace := tr }
    | some pic => ImageReadConvert env { h with p_dec := some r.2 } r.2 pic p_fmt_out tr

/-- Function `ImageWrite` (lines 206-211): a stub that returns a null block. -/
def ImageWrite (_h : image_handler_t) (_pic : picture_t)
    (_p_fmt_in _p_fmt_out : video_format_t) : Option block_t :=
  none

/-- Modelled from the spec: the generic failure code `VLC_EGENERIC` comes
from the VLC headers, which are not part of the provided source; the spec
only requires it to signal failure (distinct from the success code 0). -/
def VLC_EGENERIC : Int := -666

/-- Function `ImageWriteUrl` (lines 213-218): a stub that returns `VLC_EGENERIC`. -/
def ImageWriteUrl (_h : image_handler_t) (_pic : picture_t)
    (_p_fmt_in _p_fmt_out : video_format_t) (_psz_url : String) : Int :=
  VLC_EGENERIC

/-- A sequence of `ImageRead` calls on one handler, returning the final
handler and the concatenated trace. -/
def runReads (env : Env) (h : image_handler_t) :
    List (block_t × video_format_t × video_format_t) → image_handler_t × List Event
  | [] => (h, [])
  | c :: rest =>
    let r := ImageRead env h c.1 c.2.1 c.2.2
    let s := runReads env r.handler rest
    (s.1, r.trace ++ s.2)

/-! ### Helper lemmas -/

/-- Unfolding `ImageRead` when the decoder phase yields no picture from the
first decode invocation. -/
theorem ImageRead_eq_nopic (env : Env) (h : image_handler_t) (p_block : block_t)
    (p_fmt_in p_fmt_out : video_format_t) (d d2 : decoder_t) (tr : List Event)
    (hdp : decoderPhase env h p_fmt_in = (some d, tr))
    (hds : decodeStep env d (stampBlock env p_block) = (none, d2)) :
    ImageRead env h p_block p_fmt_in p_fmt_out =
      { handler := { h with p_dec := some d2 }, fmt_out := p_fmt_out, pic := none,
        trace := tr ++ [Event.decodeCall p_block.id env.now env.now,
                        Event.decodeCall p_block.id env.now env.now] } := by
  unfold ImageRead
  rw [hdp]
  simp only [hds]

/-- Unfolding `ImageRead` when the first decode invocation yields a picture. -/
theorem ImageRead_eq_pic (env : Env) (h : image_handler_t) (p_block : block_t)
    (p_fmt_in p_fmt_out : video_format_t) (d d2 : decoder_t) (pic : picture_t)
    (tr : List Event)
    (hdp : decoderPhase env h p_fmt_in = (some d, tr))
    (hds : decodeStep env d (stampBlock env p_block) = (some pic, d2)) :
    ImageRead env h p_block p_fmt_in p_fmt_out =
      ImageReadConvert env { h with p_dec := some d2 } d2 pic p_fmt_out
        (tr ++ [Event.decodeCall p_block.id env.now env.now,
                Event.decodeCall p_block.id env.now env.now]) := by
  unfold ImageRead
  rw [hdp]
  simp only [hds]

/-! ### Concrete instances used by witnesses and counterexamples -/

/-- A fully unspecified output format. -/
def fmtZ : video_format_t := { i_chroma := 0, i_width := 0, i_height := 0, i_aspect := 0 }

/-- Test environment: only codec 1 has a decoder module, which decodes to a
100x100 picture with chroma 2; a filter module always exists. -/
def envW : Env :=
  { hasDecoderModule := fun c => c == 1,
    decode := fun d _ =>
      if d.fmt_in.i_codec == 1 then
        (some { id := 100 },
         { i_codec := 2,
           video := { i_chroma := 2, i_width := 100, i_height := 100, i_aspect := 1 } })
      else (none, d.fmt_out),
    decode2 := fun d _ => d.fmt_out,
    hasFilterModule := fun _ _ => true,
    filterRun := fun f p => (some { id := p.id + 1 }, f.fmt_out),
    allocPlanes := fun _ _ _ _ => 1,
    freshPic := 50,
    now := 7 }

/-- Like `envW` but the decoder never produces a picture. -/
def envN : Env :=
  { envW with decode := fun d _ => (none, d.fmt_out) }

/-- Like `envW` but no filter module exists. -/
def envF : Env :=
  { envW with hasFilterModule := fun _ _ => false }

/-- An empty handler. -/
def handler0 : image_handler_t := { p_dec := none, p_filter := none }

def pic0 : picture_t := { id := 0 }

def blk0 : block_t := { id := 3, i_pts := 0, i_dts := 0 }

/-- Input format hint with codec 1. -/
def fmtIn1 : video_format_t := { i_chroma := 1, i_width := 0, i_height := 0, i_aspect := 0 }

/-- A decoder as cached after a successful create for codec 1. -/
def decW : decoder_t :=
  { fmt_in := { i_codec := 1, video := fmtIn1 }, fmt_out := es_null }

/-! ### Claims -/

/-- C3: in the output-format resolution step of a read call (lines 121-126),
each of pixel encoding, width and height that is unspecified (zero) is set to
the decoder's negotiated output value for that field, and each field already
specified is left as given; no other field (aspect) is written at this
step. -/
theorem image_C3 (p_fmt_out dec_out : video_format_t) :
    ((p_fmt_out.i_chroma = 0 →
        (resolveFmt p_fmt_out dec_out).i_chroma = dec_out.i_chroma) ∧
     (p_fmt_out.i_chroma ≠ 0 →
        (resolveFmt p_fmt_out dec_out).i_chroma = p_fmt_out.i_chroma)) ∧
    ((p_fmt_out.i_width = 0 →
        (resolveFmt p_fmt_out dec_out).i_width = dec_out.i_width) ∧
     (p_fmt_out.i_width ≠ 0 →
        (resolveFmt p_fmt_out dec_out).i_width = p_fmt_out.i_width)) ∧
    ((p_fmt_out.i_height = 0 →
        (resolveFmt p_fmt_out dec_out).i_height = dec_out.i_height) ∧
     (p_fmt_out.i_height ≠ 0 →
        (resolveFmt p_fmt_out dec_out).i_height = p_fmt_out.i_height)) ∧
    (resolveFmt p_fmt_out dec_out).i_aspect = p_fmt_out.i_aspect := by
  unfold resolveFmt
  refine ⟨⟨?_, ?_⟩, ⟨?_, ?_⟩, ⟨?_, ?_⟩, rfl⟩ <;> intro hz <;> simp [hz]

/-- Witness for C3 at a concrete partially specified format: the unspecified
chroma is filled from the decoder, the specified width is kept. -/
theorem image_C3_witness :
    (resolveFmt { i_chroma := 0, i_width := 50, i_height := 0, i_aspect := 4 }
        { i_chroma := 2, i_width := 100, i_height := 100, i_aspect := 1 }).i_chroma = 2 ∧
    (resolveFmt { i_chroma := 0, i_width := 50, i_height := 0, i_aspect := 4 }
        { i_chroma := 2, i_width := 100, i_height := 100, i_aspect := 1 }).i_width = 50 :=
  ⟨(image_C3 _ _).1.1 rfl, (image_C3 _ _).2.1.2 (by decide)⟩

/-- C8 counterexample: `ImageWrite` does not surface any failure code; it
silently returns a null block. -/
theorem image_C8_counterexample :
    ImageWrite handler0 pic0 fmtZ fmtZ = none := rfl

/-- C8 amended: `ImageWriteUrl` surfaces the generic (nonzero) error code,
but `ImageWrite` silently returns a null block with no failure signal. -/
theorem image_C8_amended (h : image_handler_t) (pic : picture_t)
    (f1 f2 : video_format_t) (url : String) :
    ImageWrite h pic f1 f2 = none ∧
    ImageWriteUrl h pic f1 f2 url = VLC_EGENERIC ∧ VLC_EGENERIC ≠ 0 :=
  ⟨rfl, rfl, by decide⟩

/-- A decoder whose negotiated output codec (5) differs from its negotiated
output video chroma (7). -/
def decB : decoder_t :=
  { fmt_in := { i_codec := 5, video := { i_chroma := 5, i_width := 10, i_height := 10, i_aspect := 1 } },
    fmt_out := { i_codec := 5, video := { i_chroma := 7, i_width := 10, i_height := 10, i_aspect := 1 } } }

/-- C9 counterexample: allocating a buffer through `video_new_buffer` mutates
the requesting decoder: its negotiated output video chroma (7) is overwritten
with its output codec (5) at line 235, so the decoder is not left
unchanged. -/
theorem image_C9_counterexample :
    (video_new_buffer envW decB).1 ≠ decB ∧
    decB.fmt_out.video.i_chroma = 7 ∧
    (video_new_buffer envW decB).1.fmt_out.video.i_chroma = 5 := by decide

/-- C9 amended: the only state `video_new_buffer` modifies besides the new
picture is the requesting decoder's negotiated output video chroma, which is
set to the decoder's output codec; every other decoder field is unchanged,
whether or not allocation succeeds. -/
theorem image_C9_amended (env : Env) (p_dec : decoder_t) :
    (video_new_buffer env p_dec).1 =
      { p_dec with fmt_out := { p_dec.fmt_out with
          video := { p_dec.fmt_out.video with i_chroma := p_dec.fmt_out.i_codec } } } := by
  simp only [video_new_buffer]
  split <;> rfl

/-- The value `(decodeStep env d b).1` is the first decode invocation's picture. -/
theorem decodeStep_fst (env : Env) (d : decoder_t) (b : block_t) :
    (decodeStep env d b).1 = (env.decode d b).1 := rfl

/-- Branch lemma: decoder output already equals the resolved output. -/
theorem ImageReadConvert_same (env : Env) (h : image_handler_t) (d2 : decoder_t)
    (pic : picture_t) (fout : video_format_t) (tr : List Event)
    (he : fmtDiffers d2.fmt_out.video (resolveFmt fout d2.fmt_out.video) = false) :
    ImageReadConvert env h d2 pic fout tr =
      { handler := h, fmt_out := d2.fmt_out.video, pic := some pic, trace := tr } := by
  simp [ImageReadConvert, he]

/-- Branch lemma: formats differ and the cached filter matches all six
compared fields, so it is reused. -/
theorem ImageReadConvert_reuse (env : Env) (h : image_handler_t) (d2 : decoder_t)
    (pic : picture_t) (fout : video_format_t) (tr : List Event) (f : filter_t)
    (hd : fmtDiffers d2.fmt_out.video (resolveFmt fout d2.fmt_out.video) = true)
    (hf : h.p_filter = some f)
    (hm : filterMismatch f d2.fmt_out.video (resolveFmt fout d2.fmt_out.video) = false) :
    ImageReadConvert env h d2 pic fout tr = runFilter env h f pic tr := by
  simp [ImageReadConvert, hd, hf, hm]

/-- Branch lemma: formats differ and the cached filter mismatches, so it is
destroyed and a fresh one is started. -/
theorem ImageReadConvert_invalidate (env : Env) (h : image_handler_t) (d2 : decoder_t)
    (pic : picture_t) (fout : video_format_t) (tr : List Event) (f : filter_t)
    (hd : fmtDiffers d2.fmt_out.video (resolveFmt fout d2.fmt_out.video) = true)
    (hf : h.p_filter = some f)
    (hm : filterMismatch f d2.fmt_out.video (resolveFmt fout d2.fmt_out.video) = true) :
    ImageReadConvert env h d2 pic fout tr =
      startFilter env { h with p_filter := none } d2 pic
        (resolveFmt fout d2.fmt_out.video) (tr ++ [Event.deleteFilter]) := by
  simp [ImageReadConvert, hd, hf, hm]

/-- Branch lemma: formats differ and no filter is cached. -/
theorem ImageReadConvert_fresh (env : Env) (h : image_handler_t) (d2 : decoder_t)
    (pic : picture_t) (fout : video_format_t) (tr : List Event)
    (hd : fmtDiffers d2.fmt_out.video (resolveFmt fout d2.fmt_out.video) = true)
    (hf : h.p_filter = none) :
    ImageReadConvert env h d2 pic fout tr =
      startFilter env h d2 pic (resolveFmt fout d2.fmt_out.video) tr := by
  simp [ImageReadConvert, hd, hf]

/-- Branch lemma: filter creation fails. -/
theorem startFilter_fail (env : Env) (h : image_handler_t) (d2 : decoder_t)
    (pic : picture_t) (fo : video_format_t) (tr : List Event)
    (hcf : CreateFilter env d2.fmt_out fo = none) :
    startFilter env h d2 pic fo tr =
      { handler := h, fmt_out := fo, pic := none,
        trace := tr ++ [Event.createFilter d2.fmt_out fo, Event.releasePic pic.id] } := by
  simp [startFilter, hcf]

/-- Branch lemma: filter creation succeeds. -/
theorem startFilter_ok (env : Env) (h : image_handler_t) (d2 : decoder_t)
    (pic : picture_t) (fo : video_format_t) (tr : List Event) (f : filter_t)
    (hcf : CreateFilter env d2.fmt_out fo = some f) :
    startFilter env h d2 pic fo tr =
      runFilter env { h with p_filter := some f } f pic
        (tr ++ [Event.createFilter d2.fmt_out fo]) := by
  simp [startFilter, hcf]

/-- In every branch of the convert stage, the trace only grows, and the
decoded picture is either returned as-is, fed to a filter invocation, or
released. -/
theorem ImageReadConvert_cases (env : Env) (h : image_handler_t) (d2 : decoder_t)
    (pic : picture_t) (fout : video_format_t) (tr : List Event) :
    (∃ ext, (ImageReadConvert env h d2 pic fout tr).trace = tr ++ ext) ∧
    ((ImageReadConvert env h d2 pic fout tr).pic = some pic ∨
     (∃ l f, (ImageReadConvert env h d2 pic fout tr).trace = l ++ [Event.filterCall f pic.id]) ∨
     (∃ l, (ImageReadConvert env h d2 pic fout tr).trace = l ++ [Event.releasePic pic.id])) := by
  by_cases hd : fmtDiffers d2.fmt_out.video (resolveFmt fout d2.fmt_out.video) = true
  · have hsf : ∀ h' tr', (∃ ext, (startFilter env h' d2 pic
        (resolveFmt fout d2.fmt_out.video) tr').trace = tr' ++ ext) ∧
        ((∃ l f, (startFilter env h' d2 pic (resolveFmt fout d2.fmt_out.video) tr').trace
            = l ++ [Event.filterCall f pic.id]) ∨
         (∃ l, (startFilter env h' d2 pic (resolveFmt fout d2.fmt_out.video) tr').trace
            = l ++ [Event.releasePic pic.id])) := by
      intro h' tr'
      rcases hcf : CreateFilter env d2.fmt_out (resolveFmt fout d2.fmt_out.video) with _ | f
      · rw [startFilter_fail env h' d2 pic _ tr' hcf]
        refine ⟨⟨[Event.createFilter d2.fmt_out (resolveFmt fout d2.fmt_out.video),
                  Event.releasePic pic.id], rfl⟩, Or.inr ⟨tr' ++
                 [Event.createFilter d2.fmt_out (resolveFmt fout d2.fmt_out.video)], by simp⟩⟩
      · rw [startFilter_ok env h' d2 pic _ tr' f hcf]
        refine ⟨⟨[Event.createFilter d2.fmt_out (resolveFmt fout d2.fmt_out.video),
                  Event.filterCall f pic.id], by simp [runFilter]⟩,
          Or.inl ⟨tr' ++ [Event.createFilter d2.fmt_out (resolveFmt fout d2.fmt_out.video)],
                  f, by simp [runFilter]⟩⟩
    rcases hf : h.p_filter with _ | f
    · rw [ImageReadConvert_fresh env h d2 pic fout tr hd hf]
      rcases hsf h tr with ⟨he, hp⟩
      exact ⟨he, Or.inr hp⟩
    · by_cases hm : filterMismatch f d2.fmt_out.video (resolveFmt fout d2.fmt_out.video) = true
      · rw [ImageReadConvert_invalidate env h d2 pic fout tr f hd hf hm]
        rcases hsf { h with p_filter := none } (tr ++ [Event.deleteFilter]) with ⟨⟨ext, he⟩, hp⟩
        exact ⟨⟨Event.deleteFilter :: ext, by simpa using he⟩, Or.inr hp⟩
      · rw [ImageReadConvert_reuse env h d2 pic fout tr f hd hf (by simpa using hm)]
        exact ⟨⟨[Event.filterCall f pic.id], by simp [runFilter]⟩,
          Or.inr (Or.inl ⟨tr, f, by simp [runFilter]⟩)⟩
  · rw [ImageReadConvert_same env h d2 pic fout tr (by simpa using hd)]
    exact ⟨⟨[], by simp⟩, Or.inl rfl⟩

/-- C10: when the decode step yields no picture, the read returns before the
output-format resolution step, so the caller-supplied output format
descriptor is returned completely unchanged (every field, aspect included). -/
theorem image_C10 (env : Env) (h : image_handler_t) (p_block : block_t)
    (p_fmt_in p_fmt_out : video_format_t) (d d2 : decoder_t) (tr : List Event)
    (hdp : decoderPhase env h p_fmt_in = (some d, tr))
    (hds : decodeStep env d (stampBlock env p_block) = (none, d2)) :
    (ImageRead env h p_block p_fmt_in p_fmt_out).fmt_out = p_fmt_out := by
  rw [ImageRead_eq_nopic env h p_block p_fmt_in p_fmt_out d d2 tr hdp hds]

/-- Handler caching a fresh decoder for codec 1, with no filter cached. -/
def hW6 : image_handler_t := { p_dec := some decW, p_filter := none }

/-- Witness for C10: with a decoder that yields no picture, a fully specified
output request comes back untouched. -/
theorem image_C10_witness :
    (ImageRead envN hW6 blk0 fmtIn1
        { i_chroma := 9, i_width := 8, i_height := 7, i_aspect := 6 }).fmt_out =
      { i_chroma := 9, i_width := 8, i_height := 7, i_aspect := 6 } :=
  image_C10 envN hW6 blk0 fmtIn1 _ decW decW [] (by decide) (by decide)

/-- C6: a decode call that yields no picture makes the read return no picture
(the C function returns null after only a debug message, signalling no error
code), and the cached decode binding is kept, not torn down. -/
theorem image_C6 (env : Env) (h : image_handler_t) (p_block : block_t)
    (p_fmt_in p_fmt_out : video_format_t) (d d2 : decoder_t) (tr : List Event)
    (hdp : decoderPhase env h p_fmt_in = (some d, tr))
    (hds : decodeStep env d (stampBlock env p_block) = (none, d2)) :
    (ImageRead env h p_block p_fmt_in p_fmt_out).pic = none ∧
    (ImageRead env h p_block p_fmt_in p_fmt_out).handler.p_dec = some d2 ∧
    (ImageRead env h p_block p_fmt_in p_fmt_out).handler.p_filter = h.p_filter := by
  rw [ImageRead_eq_nopic env h p_block p_fmt_in p_fmt_out d d2 tr hdp hds]
  exact ⟨rfl, rfl, rfl⟩

/-- Witness for C6: the no-picture decoder leaves the decode binding in
place. -/
theorem image_C6_witness :
    (ImageRead envN hW6 blk0 fmtIn1 fmtZ).pic = none ∧
    (ImageRead envN hW6 blk0 fmtIn1 fmtZ).handler.p_dec = some decW ∧
    (ImageRead envN hW6 blk0 fmtIn1 fmtZ).handler.p_filter = hW6.p_filter :=
  image_C6 envN hW6 blk0 fmtIn1 fmtZ decW decW [] (by decide) (by decide)

/-- C7: once a decoder is in place, the payload is stamped with the current
time as both presentation and decode timestamps, the decode operation is
invoked twice in immediate succession on the same payload, and the first
invocation's result is the decoded picture the rest of the call uses (when it
is null the read returns null; when it is a picture, that picture is
returned raw, fed to the filter invocation, or released). -/
theorem image_C7 (env : Env) (h : image_handler_t) (p_block : block_t)
    (p_fmt_in p_fmt_out : video_format_t) (d : decoder_t) (tr : List Event)
    (hdp : decoderPhase env h p_fmt_in = (some d, tr)) :
    (stampBlock env p_block).i_pts = env.now ∧
    (stampBlock env p_block).i_dts = env.now ∧
    (∃ l1 l2, (ImageRead env h p_block p_fmt_in p_fmt_out).trace =
       l1 ++ [Event.decodeCall p_block.id env.now env.now,
              Event.decodeCall p_block.id env.now env.now] ++ l2) ∧
    ((env.decode d (stampBlock env p_block)).1 = none →
       (ImageRead env h p_block p_fmt_in p_fmt_out).pic = none) ∧
    (∀ p, (env.decode d (stampBlock env p_block)).1 = some p →
       (ImageRead env h p_block p_fmt_in p_fmt_out).pic = some p ∨
       (∃ l f, (ImageRead env h p_block p_fmt_in p_fmt_out).trace =
          l ++ [Event.filterCall f p.id]) ∨
       (∃ l, (ImageRead env h p_block p_fmt_in p_fmt_out).trace =
          l ++ [Event.releasePic p.id])) := by
  refine ⟨rfl, rfl, ?_, ?_, ?_⟩
  · rcases hds : decodeStep env d (stampBlock env p_block) with ⟨op, d2⟩
    rcases op with _ | p0
    · rw [ImageRead_eq_nopic env h p_block p_fmt_in p_fmt_out d d2 tr hdp hds]
      exact ⟨tr, [], by simp⟩
    · rw [ImageRead_eq_pic env h p_block p_fmt_in p_fmt_out d d2 p0 tr hdp hds]
      rcases (ImageReadConvert_cases env { h with p_dec := some d2 } d2 p0 p_fmt_out
        (tr ++ [Event.decodeCall p_block.id env.now env.now,
                Event.decodeCall p_block.id env.now env.now])).1 with ⟨ext, he⟩
      exact ⟨tr, ext, by rw [he]⟩
  · intro hn
    rcases hds : decodeStep env d (stampBlock env p_block) with ⟨op, d2⟩
    have h1 : (env.decode d (stampBlock env p_block)).1 = op := by
      rw [← decodeStep_fst, hds]
    rw [h1] at hn
    subst hn
    rw [ImageRead_eq_nopic env h p_block p_fmt_in p_fmt_out d d2 tr hdp hds]
  · intro p hp
    rcases hds : decodeStep env d (stampBlock env p_block) with ⟨op, d2⟩
    have h1 : (env.decode d (stampBlock env p_block)).1 = op := by
      rw [← decodeStep_fst, hds]
    rw [h1] at hp
    subst hp
    rw [ImageRead_eq_pic env h p_block p_fmt_in p_fmt_out d d2 p tr hdp hds]
    exact (ImageReadConvert_cases env { h with p_dec := some d2 } d2 p p_fmt_out
      (tr ++ [Event.decodeCall p_block.id env.now env.now,
              Event.decodeCall p_block.id env.now env.now])).2

/-- Witness for C7: on a concrete run the two adjacent decode invocations
appear in the trace. -/
theorem image_C7_witness :
    ∃ l1 l2, (ImageRead envW hW6 blk0 fmtIn1 fmtZ).trace =
      l1 ++ [Event.decodeCall blk0.id envW.now envW.now,
             Event.decodeCall blk0.id envW.now envW.now] ++ l2 :=
  (image_C7 envW hW6 blk0 fmtIn1 fmtZ decW [] (by decide)).2.2.1

/-- The decoder phase emits one of three event lists. -/
theorem decoderPhase_trace_cases (env : Env) (h : image_handler_t)
    (p_fmt_in : video_format_t) :
    (decoderPhase env h p_fmt_in).2 = [] ∨
    (decoderPhase env h p_fmt_in).2 = [Event.createDecoder p_fmt_in.i_chroma] ∨
    (decoderPhase env h p_fmt_in).2 =
      [Event.deleteDecoder, Event.createDecoder p_fmt_in.i_chroma] := by
  unfold decoderPhase
  rcases h.p_dec with _ | d0
  · simp
  · by_cases hc : d0.fmt_in.i_codec ≠ p_fmt_in.i_chroma <;> simp [hc]

/-- The decoder phase emits no events other than decoder creations and
deletions. -/
theorem decoderPhase_countP (env : Env) (h : image_handler_t)
    (p_fmt_in : video_format_t) (p : Event → Bool)
    (hc : ∀ c, p (Event.createDecoder c) = false)
    (hd : p Event.deleteDecoder = false) :
    ((decoderPhase env h p_fmt_in).2).countP p = 0 := by
  rcases decoderPhase_trace_cases env h p_fmt_in with h1 | h1 | h1 <;>
    rw [h1] <;> simp [List.countP_cons, hc, hd]

/-- The decode step never changes the decoder's negotiated input format. -/
theorem decodeStep_fmt_in (env : Env) (d : decoder_t) (b : block_t) :
    (decodeStep env d b).2.fmt_in = d.fmt_in := rfl

/-- The convert stage does not touch the decode binding, and only appends
filter-lifecycle or release events to the trace. -/
theorem ImageReadConvert_frame (env : Env) (h : image_handler_t) (d2 : decoder_t)
    (pic : picture_t) (fout : video_format_t) (tr : List Event) (p : Event → Bool)
    (hdf : p Event.deleteFilter = false)
    (hcf : ∀ a b, p (Event.createFilter a b) = false)
    (hfc : ∀ f q, p (Event.filterCall f q) = false)
    (hrp : ∀ q, p (Event.releasePic q) = false) :
    (ImageReadConvert env h d2 pic fout tr).handler.p_dec = h.p_dec ∧
    (ImageReadConvert env h d2 pic fout tr).trace.countP p = tr.countP p := by
  by_cases hd : fmtDiffers d2.fmt_out.video (resolveFmt fout d2.fmt_out.video) = true
  · have hsf : ∀ h' : image_handler_t, h'.p_dec = h.p_dec → ∀ tr' : List Event,
        tr'.countP p = tr.countP p →
        (startFilter env h' d2 pic (resolveFmt fout d2.fmt_out.video) tr').handler.p_dec
          = h.p_dec ∧
        (startFilter env h' d2 pic
          (resolveFmt fout d2.fmt_out.video) tr').trace.countP p = tr.countP p := by
      intro h' hh tr' htr
      rcases hcfr : CreateFilter env d2.fmt_out (resolveFmt fout d2.fmt_out.video) with _ | f
      · rw [startFilter_fail env h' d2 pic _ tr' hcfr]
        simp [List.countP_append, List.countP_cons, hcf, hrp, hh, htr]
      · rw [startFilter_ok env h' d2 pic _ tr' f hcfr]
        simp [runFilter, List.countP_append, List.countP_cons, hcf, hfc, hh, htr]
    rcases hf : h.p_filter with _ | f
    · rw [ImageReadConvert_fresh env h d2 pic fout tr hd hf]
      exact hsf h rfl tr rfl
    · by_cases hm : filterMismatch f d2.fmt_out.video (resolveFmt fout d2.fmt_out.video) = true
      · rw [ImageReadConvert_invalidate env h d2 pic fout tr f hd hf hm]
        apply hsf
        · rfl
        · simp [List.countP_append, List.countP_cons, hdf]
      · rw [ImageReadConvert_reuse env h d2 pic fout tr f hd hf (by simpa using hm)]
        simp [runFilter, List.countP_append, List.countP_cons, hfc]
  · rw [ImageReadConvert_same env h d2 pic fout tr (by simpa using hd)]
    exact ⟨rfl, rfl⟩

/-- C4: when, after resolution, the decoder's negotiated output equals the
resolved output in pixel encoding, width and height, no transform engine is
created or invoked, the returned picture is the raw decoder output, and the
decoder's output format is written back as the result format. -/
theorem image_C4 (env : Env) (h : image_handler_t) (p_block : block_t)
    (p_fmt_in p_fmt_out : video_format_t) (d d2 : decoder_t) (pic : picture_t)
    (tr : List Event)
    (hdp : decoderPhase env h p_fmt_in = (some d, tr))
    (hds : decodeStep env d (stampBlock env p_block) = (some pic, d2))
    (heq : fmtDiffers d2.fmt_out.video (resolveFmt p_fmt_out d2.fmt_out.video) = false) :
    (ImageRead env h p_block p_fmt_in p_fmt_out).pic = some pic ∧
    (ImageRead env h p_block p_fmt_in p_fmt_out).fmt_out = d2.fmt_out.video ∧
    (ImageRead env h p_block p_fmt_in p_fmt_out).handler.p_filter = h.p_filter ∧
    (ImageRead env h p_block p_fmt_in p_fmt_out).trace.countP isCreateFil = 0 ∧
    (ImageRead env h p_block p_fmt_in p_fmt_out).trace.countP isFilterCall = 0 := by
  rw [ImageRead_eq_pic env h p_block p_fmt_in p_fmt_out d d2 pic tr hdp hds,
      ImageReadConvert_same env _ d2 pic p_fmt_out _ heq]
  have h1 : tr.countP isCreateFil = 0 := by
    have := decoderPhase_countP env h p_fmt_in isCreateFil (fun c => rfl) rfl
    rw [hdp] at this
    simpa using this
  have h2 : tr.countP isFilterCall = 0 := by
    have := decoderPhase_countP env h p_fmt_in isFilterCall (fun c => rfl) rfl
    rw [hdp] at this
    simpa using this
  refine ⟨rfl, rfl, rfl, ?_, ?_⟩ <;>
    simp [List.countP_append, List.countP_cons, h1, h2, isCreateFil, isFilterCall]

/-- The decoder state cached by `envW` after one successful decode of codec
1. -/
def decW2 : decoder_t :=
  { fmt_in := { i_codec := 1, video := fmtIn1 },
    fmt_out := { i_codec := 2,
                 video := { i_chroma := 2, i_width := 100, i_height := 100, i_aspect := 1 } } }

/-- Witness for C4: a fully unspecified output request resolves to the
decoder's native 100x100 output and no filter is created or invoked. -/
theorem image_C4_witness :
    (ImageRead envW hW6 blk0 fmtIn1 fmtZ).pic = some { id := 100 } ∧
    (ImageRead envW hW6 blk0 fmtIn1 fmtZ).fmt_out = decW2.fmt_out.video ∧
    (ImageRead envW hW6 blk0 fmtIn1 fmtZ).handler.p_filter = hW6.p_filter ∧
    (ImageRead envW hW6 blk0 fmtIn1 fmtZ).trace.countP isCreateFil = 0 ∧
    (ImageRead envW hW6 blk0 fmtIn1 fmtZ).trace.countP isFilterCall = 0 :=
  image_C4 envW hW6 blk0 fmtIn1 fmtZ decW decW2 { id := 100 } []
    (by decide) (by decide) (by decide)

/-- C5: when the decode step succeeds but transform-engine creation fails,
the decoded picture is released exactly once before the call returns no
picture, is never handed to a filter invocation, and the filter slot is left
empty. -/
theorem image_C5 (env : Env) (h : image_handler_t) (p_block : block_t)
    (p_fmt_in p_fmt_out : video_format_t) (d d2 : decoder_t) (pic : picture_t)
    (tr : List Event)
    (hdp : decoderPhase env h p_fmt_in = (some d, tr))
    (hds : decodeStep env d (stampBlock env p_block) = (some pic, d2))
    (hdiff : fmtDiffers d2.fmt_out.video (resolveFmt p_fmt_out d2.fmt_out.video) = true)
    (hnofil : ∀ f, h.p_filter = some f →
      filterMismatch f d2.fmt_out.video (resolveFmt p_fmt_out d2.fmt_out.video) = true)
    (hcf : CreateFilter env d2.fmt_out (resolveFmt p_fmt_out d2.fmt_out.video) = none) :
    (ImageRead env h p_block p_fmt_in p_fmt_out).pic = none ∧
    (ImageRead env h p_block p_fmt_in p_fmt_out).trace.countP (isReleaseOf pic.id) = 1 ∧
    (ImageRead env h p_block p_fmt_in p_fmt_out).trace.countP (isFilterCallOf pic.id) = 0 ∧
    (ImageRead env h p_block p_fmt_in p_fmt_out).handler.p_filter = none := by
  rw [ImageRead_eq_pic env h p_block p_fmt_in p_fmt_out d d2 pic tr hdp hds]
  have h1 : tr.countP (isReleaseOf pic.id) = 0 := by
    have := decoderPhase_countP env h p_fmt_in (isReleaseOf pic.id) (fun c => rfl) rfl
    rw [hdp] at this
    simpa using this
  have h2 : tr.countP (isFilterCallOf pic.id) = 0 := by
    have := decoderPhase_countP env h p_fmt_in (isFilterCallOf pic.id) (fun c => rfl) rfl
    rw [hdp] at this
    simpa using this
  rcases hf : h.p_filter with _ | f
  · rw [ImageReadConvert_fresh env _ d2 pic p_fmt_out _ hdiff rfl,
        startFilter_fail env _ d2 pic _ _ hcf]
    refine ⟨rfl, ?_, ?_, rfl⟩ <;>
      simp [List.countP_append, List.countP_cons, h1, h2, isReleaseOf, isFilterCallOf]
  · rw [ImageReadConvert_invalidate env _ d2 pic p_fmt_out _ f hdiff rfl
        (hnofil f hf),
        startFilter_fail env _ d2 pic _ _ hcf]
    refine ⟨rfl, ?_, ?_, rfl⟩ <;>
      simp [List.countP_append, List.countP_cons, h1, h2, isReleaseOf, isFilterCallOf]

/-- An output request that differs from `envW`'s decoder output. -/
def fmtOut50 : video_format_t := { i_chroma := 9, i_width := 50, i_height := 50, i_aspect := 1 }

/-- Witness for C5: with no filter module available, the decoded picture is
released exactly once and the read returns no picture. -/
theorem image_C5_witness :
    (ImageRead envF hW6 blk0 fmtIn1 fmtOut50).pic = none ∧
    (ImageRead envF hW6 blk0 fmtIn1 fmtOut50).trace.countP (isReleaseOf 100) = 1 ∧
    (ImageRead envF hW6 blk0 fmtIn1 fmtOut50).trace.countP (isFilterCallOf 100) = 0 ∧
    (ImageRead envF hW6 blk0 fmtIn1 fmtOut50).handler.p_filter = none :=
  image_C5 envF hW6 blk0 fmtIn1 fmtOut50 decW decW2 { id := 100 } []
    (by decide) (by decide) (by decide)
    (fun f hf => by simp [hW6] at hf) (by decide)

/-- C1: on a read call where the decoder's negotiated output differs from the
resolved output in encoding, width or height, a cached transform binding is
reused if and only if all six of its input encoding/width/height and output
encoding/width/height equal the decoder's output and the resolved output; a
mismatch in any field destroys the binding and creates a new one (exactly one
deletion and one creation), invoking the transform only after the creation. -/
theorem image_C1 (env : Env) (h : image_handler_t) (p_block : block_t)
    (p_fmt_in p_fmt_out : video_format_t) (d d2 : decoder_t) (pic : picture_t)
    (f : filter_t) (tr : List Event)
    (hdp : decoderPhase env h p_fmt_in = (some d, tr))
    (hds : decodeStep env d (stampBlock env p_block) = (some pic, d2))
    (hf : h.p_filter = some f)
    (hdiff : fmtDiffers d2.fmt_out.video (resolveFmt p_fmt_out d2.fmt_out.video) = true) :
    (filterMismatch f d2.fmt_out.video (resolveFmt p_fmt_out d2.fmt_out.video) = false ↔
      (f.fmt_in.video.i_chroma = d2.fmt_out.video.i_chroma ∧
       f.fmt_in.video.i_width = d2.fmt_out.video.i_width ∧
       f.fmt_in.video.i_height = d2.fmt_out.video.i_height ∧
       f.fmt_out.video.i_chroma = (resolveFmt p_fmt_out d2.fmt_out.video).i_chroma ∧
       f.fmt_out.video.i_width = (resolveFmt p_fmt_out d2.fmt_out.video).i_width ∧
       f.fmt_out.video.i_height = (resolveFmt p_fmt_out d2.fmt_out.video).i_height)) ∧
    (filterMismatch f d2.fmt_out.video (resolveFmt p_fmt_out d2.fmt_out.video) = false →
      (ImageRead env h p_block p_fmt_in p_fmt_out).trace.countP isDeleteFil = 0 ∧
      (ImageRead env h p_block p_fmt_in p_fmt_out).trace.countP isCreateFil = 0 ∧
      (∃ l1, (ImageRead env h p_block p_fmt_in p_fmt_out).trace =
         l1 ++ [Event.filterCall f pic.id])) ∧
    (filterMismatch f d2.fmt_out.video (resolveFmt p_fmt_out d2.fmt_out.video) = true →
      (ImageRead env h p_block p_fmt_in p_fmt_out).trace.countP isDeleteFil = 1 ∧
      (ImageRead env h p_block p_fmt_in p_fmt_out).trace.countP isCreateFil = 1 ∧
      (∀ f', CreateFilter env d2.fmt_out (resolveFmt p_fmt_out d2.fmt_out.video) = some f' →
        ∃ l1, (ImageRead env h p_block p_fmt_in p_fmt_out).trace =
          l1 ++ [Event.deleteFilter,
                 Event.createFilter d2.fmt_out (resolveFmt p_fmt_out d2.fmt_out.video),
                 Event.filterCall f' pic.id])) := by
  have hF : tr.countP isDeleteFil = 0 := by
    have := decoderPhase_countP env h p_fmt_in isDeleteFil (fun c => rfl) rfl
    rw [hdp] at this
    simpa using this
  have hC : tr.countP isCreateFil = 0 := by
    have := decoderPhase_countP env h p_fmt_in isCreateFil (fun c => rfl) rfl
    rw [hdp] at this
    simpa using this
  rw [ImageRead_eq_pic env h p_block p_fmt_in p_fmt_out d d2 pic tr hdp hds]
  refine ⟨by simp [filterMismatch, and_assoc], ?_, ?_⟩
  · intro hm
    rw [ImageReadConvert_reuse env { h with p_dec := some d2 } d2 pic p_fmt_out _ f hdiff hf hm]
    refine ⟨?_, ?_, ⟨tr ++ [Event.decodeCall p_block.id env.now env.now,
        Event.decodeCall p_block.id env.now env.now], by simp [runFilter]⟩⟩ <;>
      simp [runFilter, List.countP_append, List.countP_cons, hF, hC,
            isDeleteFil, isCreateFil]
  · intro hm
    rw [ImageReadConvert_invalidate env { h with p_dec := some d2 } d2 pic p_fmt_out _ f
        hdiff hf hm]
    rcases hcf : CreateFilter env d2.fmt_out (resolveFmt p_fmt_out d2.fmt_out.video)
      with _ | f1
    · rw [startFilter_fail env _ d2 pic _ _ hcf]
      refine ⟨?_, ?_, ?_⟩
      · simp [List.countP_append, List.countP_cons, hF, isDeleteFil]
      · simp [List.countP_append, List.countP_cons, hC, isCreateFil]
      · intro f2 h2
        exact absurd h2 (by simp)
    · rw [startFilter_ok env _ d2 pic _ _ f1 hcf]
      refine ⟨?_, ?_, ?_⟩
      · simp [runFilter, List.countP_append, List.countP_cons, hF, isDeleteFil]
      · simp [runFilter, List.countP_append, List.countP_cons, hC, isCreateFil]
      · intro f2 h2
        injection h2 with he
        subst he
        exact ⟨tr ++ [Event.decodeCall p_block.id env.now env.now,
                      Event.decodeCall p_block.id env.now env.now], by simp [runFilter]⟩

/-- A cached filter matching decoder output (2,100,100) and request
(9,50,50). -/
def fW : filter_t :=
  { fmt_in := { i_codec := 2,
                video := { i_chroma := 2, i_width := 100, i_height := 100, i_aspect := 1 } },
    fmt_out := { i_codec := 9,
                 video := { i_chroma := 9, i_width := 50, i_height := 50, i_aspect := 1 } } }

/-- Handler caching both the codec-1 decoder and the matching filter. -/
def hWF : image_handler_t := { p_dec := some decW, p_filter := some fW }

/-- Witness for C1: a cached filter agreeing on all six fields is reused (no
filter deletion, no filter creation, and the transform is invoked on it). -/
theorem image_C1_witness :
    (ImageRead envW hWF blk0 fmtIn1 fmtOut50).trace.countP isDeleteFil = 0 ∧
    (ImageRead envW hWF blk0 fmtIn1 fmtOut50).trace.countP isCreateFil = 0 ∧
    (∃ l1, (ImageRead envW hWF blk0 fmtIn1 fmtOut50).trace =
       l1 ++ [Event.filterCall fW 100]) :=
  (image_C1 envW hWF blk0 fmtIn1 fmtOut50 decW decW2 { id := 100 } fW []
    (by decide) (by decide) rfl (by decide)).2.1 (by decide)

/-- Unfolding `ImageRead` when decoder creation fails. -/
theorem ImageRead_eq_fail (env : Env) (h : image_handler_t) (p_block : block_t)
    (p_fmt_in p_fmt_out : video_format_t) (tr : List Event)
    (hdp : decoderPhase env h p_fmt_in = (none, tr)) :
    ImageRead env h p_block p_fmt_in p_fmt_out =
      { handler := { h with p_dec := none }, fmt_out := p_fmt_out, pic := none,
        trace := tr } := by
  unfold ImageRead
  rw [hdp]

/-- Once the decoder phase has settled on decoder `d`, the rest of the read
keeps a decode binding with `d`'s negotiated input format, extends the
decoder-phase trace, and appends no further decoder lifecycle events. -/
theorem ImageRead_decoder_frame (env : Env) (h : image_handler_t) (p_block : block_t)
    (p_fmt_in p_fmt_out : video_format_t) (d : decoder_t) (tr : List Event)
    (hdp : decoderPhase env h p_fmt_in = (some d, tr)) (p : Event → Bool)
    (hdc : ∀ b t1 t2, p (Event.decodeCall b t1 t2) = false)
    (hdf : p Event.deleteFilter = false)
    (hcf : ∀ a b, p (Event.createFilter a b) = false)
    (hfc : ∀ f q, p (Event.filterCall f q) = false)
    (hrp : ∀ q, p (Event.releasePic q) = false) :
    (∃ d', (ImageRead env h p_block p_fmt_in p_fmt_out).handler.p_dec = some d' ∧
       d'.fmt_in = d.fmt_in) ∧
    (ImageRead env h p_block p_fmt_in p_fmt_out).trace.countP p = tr.countP p ∧
    (∃ ext, (ImageRead env h p_block p_fmt_in p_fmt_out).trace = tr ++ ext) := by
  rcases hds : decodeStep env d (stampBlock env p_block) with ⟨op, d2⟩
  have hfi : d2.fmt_in = d.fmt_in := by
    have := decodeStep_fmt_in env d (stampBlock env p_block)
    rw [hds] at this
    exact this
  rcases op with _ | pic
  · rw [ImageRead_eq_nopic env h p_block p_fmt_in p_fmt_out d d2 tr hdp hds]
    exact ⟨⟨d2, rfl, hfi⟩, by simp [List.countP_append, List.countP_cons, hdc],
      ⟨_, rfl⟩⟩
  · rw [ImageRead_eq_pic env h p_block p_fmt_in p_fmt_out d d2 pic tr hdp hds]
    obtain ⟨hp1, hc1⟩ := ImageReadConvert_frame env { h with p_dec := some d2 } d2 pic
      p_fmt_out (tr ++ [Event.decodeCall p_block.id env.now env.now,
                        Event.decodeCall p_block.id env.now env.now]) p hdf hcf hfc hrp
    obtain ⟨ext, hext⟩ := (ImageReadConvert_cases env { h with p_dec := some d2 } d2 pic
      p_fmt_out (tr ++ [Event.decodeCall p_block.id env.now env.now,
                        Event.decodeCall p_block.id env.now env.now])).1
    refine ⟨⟨d2, by rw [hp1], hfi⟩, ?_, ?_⟩
    · rw [hc1]
      simp [List.countP_append, List.countP_cons, hdc]
    · exact ⟨[Event.decodeCall p_block.id env.now env.now,
              Event.decodeCall p_block.id env.now env.now] ++ ext, by rw [hext]; simp⟩

/-- A read whose requested input codec matches the cached decoder reuses it:
no decoder is created or destroyed and the binding's input format is
preserved. -/
theorem ImageRead_reuse_decoder (env : Env) (h : image_handler_t) (p_block : block_t)
    (p_fmt_in p_fmt_out : video_format_t) (d : decoder_t)
    (hd : h.p_dec = some d) (hc : d.fmt_in.i_codec = p_fmt_in.i_chroma) :
    (∃ d', (ImageRead env h p_block p_fmt_in p_fmt_out).handler.p_dec = some d' ∧
       d'.fmt_in = d.fmt_in) ∧
    (ImageRead env h p_block p_fmt_in p_fmt_out).trace.countP isCreateDec = 0 ∧
    (ImageRead env h p_block p_fmt_in p_fmt_out).trace.countP isDeleteDec = 0 := by
  have hdp : decoderPhase env h p_fmt_in = (some d, []) := by
    simp [decoderPhase, hd, hc]
  obtain ⟨he, h1, _⟩ := ImageRead_decoder_frame env h p_block p_fmt_in p_fmt_out d []
    hdp isCreateDec (fun _ _ _ => rfl) rfl (fun _ _ => rfl) (fun _ _ => rfl) (fun _ => rfl)
  obtain ⟨_, h2, _⟩ := ImageRead_decoder_frame env h p_block p_fmt_in p_fmt_out d []
    hdp isDeleteDec (fun _ _ _ => rfl) rfl (fun _ _ => rfl) (fun _ _ => rfl) (fun _ => rfl)
  exact ⟨he, by simpa using h1, by simpa using h2⟩

/-- A read on an empty decoder slot, when a decoder module exists, creates the
decoder exactly once and destroys none; the new binding's negotiated input
codec is the requested chroma. -/
theorem ImageRead_create_decoder (env : Env) (h : image_handler_t) (p_block : block_t)
    (p_fmt_in p_fmt_out : video_format_t)
    (hd : h.p_dec = none) (hm : env.hasDecoderModule p_fmt_in.i_chroma = true) :
    (∃ d', (ImageRead env h p_block p_fmt_in p_fmt_out).handler.p_dec = some d' ∧
       d'.fmt_in.i_codec = p_fmt_in.i_chroma) ∧
    (ImageRead env h p_block p_fmt_in p_fmt_out).trace.countP isCreateDec = 1 ∧
    (ImageRead env h p_block p_fmt_in p_fmt_out).trace.countP isDeleteDec = 0 := by
  have hdp : decoderPhase env h p_fmt_in =
      (some { fmt_in := { i_codec := p_fmt_in.i_chroma, video := p_fmt_in },
              fmt_out := es_null },
       [Event.createDecoder p_fmt_in.i_chroma]) := by
    simp [decoderPhase, hd, CreateDecoder, hm]
  obtain ⟨⟨d', hd', hfi⟩, h1, _⟩ := ImageRead_decoder_frame env h p_block p_fmt_in
    p_fmt_out _ _ hdp isCreateDec (fun _ _ _ => rfl) rfl (fun _ _ => rfl)
    (fun _ _ => rfl) (fun _ => rfl)
  obtain ⟨_, h2, _⟩ := ImageRead_decoder_frame env h p_block p_fmt_in p_fmt_out _ _
    hdp isDeleteDec (fun _ _ _ => rfl) rfl (fun _ _ => rfl) (fun _ _ => rfl)
    (fun _ => rfl)
  refine ⟨⟨d', hd', by rw [hfi]⟩, ?_, ?_⟩
  · rw [h1]
    simp [List.countP_cons, isCreateDec]
  · rw [h2]
    simp [List.countP_cons, isDeleteDec]

/-- Over a run of calls whose input chroma always matches the cached
decoder's negotiated codec, no decoder is ever created or destroyed. -/
theorem runReads_reuse (env : Env) (cc : Nat)
    (calls : List (block_t × video_format_t × video_format_t)) :
    ∀ h d, h.p_dec = some d → d.fmt_in.i_codec = cc →
    (∀ x ∈ calls, (x.2.1 : video_format_t).i_chroma = cc) →
    (runReads env h calls).2.countP isCreateDec = 0 ∧
    (runReads env h calls).2.countP isDeleteDec = 0 := by
  induction calls with
  | nil =>
    intro h d _ _ _
    simp [runReads]
  | cons c rest ih =>
    intro h d hd hc hall
    obtain ⟨⟨d', hd', hfi⟩, h1, h0⟩ := ImageRead_reuse_decoder env h c.1 c.2.1 c.2.2 d hd
      (hc.trans (hall c (List.mem_cons_self c rest)).symm)
    have hrest := ih (ImageRead env h c.1 c.2.1 c.2.2).handler d' hd'
      (by rw [hfi]; exact hc) (fun x hx => hall x (List.mem_cons_of_mem c hx))
    simp only [runReads]
    constructor <;>
      simp [List.countP_append, h1, h0, hrest.1, hrest.2]

/-- C2: across a sequence of reads with identical input pixel encoding on a
fresh handler, the decode engine is created exactly once and never destroyed;
a single call whose input encoding differs from the cached binding's
negotiated codec destroys the binding and creates exactly one new one (delete
then create, at the head of the call's trace), and when that creation fails,
the read returns no picture with the decode-binding slot left empty. -/
theorem image_C2 (env : Env) :
    (∀ (h0 : image_handler_t) (cc : Nat)
       (c0 : block_t × video_format_t × video_format_t)
       (rest : List (block_t × video_format_t × video_format_t)),
       h0.p_dec = none → env.hasDecoderModule cc = true →
       (∀ x ∈ c0 :: rest, (x.2.1 : video_format_t).i_chroma = cc) →
       (runReads env h0 (c0 :: rest)).2.countP isCreateDec = 1 ∧
       (runReads env h0 (c0 :: rest)).2.countP isDeleteDec = 0) ∧
    (∀ (h : image_handler_t) (d : decoder_t) (p_block : block_t)
       (p_fmt_in p_fmt_out : video_format_t),
       h.p_dec = some d → d.fmt_in.i_codec ≠ p_fmt_in.i_chroma →
       (∃ tl, (ImageRead env h p_block p_fmt_in p_fmt_out).trace =
          Event.deleteDecoder :: Event.createDecoder p_fmt_in.i_chroma :: tl) ∧
       (ImageRead env h p_block p_fmt_in p_fmt_out).trace.countP isDeleteDec = 1 ∧
       (ImageRead env h p_block p_fmt_in p_fmt_out).trace.countP isCreateDec = 1 ∧
       (CreateDecoder env p_fmt_in = none →
          (ImageRead env h p_block p_fmt_in p_fmt_out).pic = none ∧
          (ImageRead env h p_block p_fmt_in p_fmt_out).handler.p_dec = none)) := by
  constructor
  · intro h0 cc c0 rest h0d hmod hall
    have hm0 : env.hasDecoderModule c0.2.1.i_chroma = true := by
      rw [hall c0 (List.mem_cons_self c0 rest)]
      exact hmod
    obtain ⟨⟨d', hd', hdc'⟩, h1, h0'⟩ :=
      ImageRead_create_decoder env h0 c0.1 c0.2.1 c0.2.2 h0d hm0
    have hrest := runReads_reuse env cc rest (ImageRead env h0 c0.1 c0.2.1 c0.2.2).handler
      d' hd' (by rw [hdc']; exact hall c0 (List.mem_cons_self c0 rest))
      (fun x hx => hall x (List.mem_cons_of_mem c0 hx))
    simp only [runReads]
    constructor <;>
      simp [List.countP_append, h1, h0', hrest.1, hrest.2]
  · intro h d p_block p_fmt_in p_fmt_out hd hne
    have hdp0 : decoderPhase env h p_fmt_in =
        (CreateDecoder env p_fmt_in,
         [Event.deleteDecoder, Event.createDecoder p_fmt_in.i_chroma]) := by
      simp [decoderPhase, hd, hne]
    rcases hcd : CreateDecoder env p_fmt_in with _ | d0
    · rw [hcd] at hdp0
      rw [ImageRead_eq_fail env h p_block p_fmt_in p_fmt_out _ hdp0]
      refine ⟨⟨[], rfl⟩, ?_, ?_, fun _ => ⟨rfl, rfl⟩⟩
      · simp [List.countP_cons, isDeleteDec]
      · simp [List.countP_cons, isCreateDec]
    · rw [hcd] at hdp0
      obtain ⟨_, hA, ⟨ext, hext⟩⟩ := ImageRead_decoder_frame env h p_block p_fmt_in
        p_fmt_out d0 _ hdp0 isDeleteDec (fun _ _ _ => rfl) rfl (fun _ _ => rfl)
        (fun _ _ => rfl) (fun _ => rfl)
      obtain ⟨_, hB, _⟩ := ImageRead_decoder_frame env h p_block p_fmt_in p_fmt_out d0 _
        hdp0 isCreateDec (fun _ _ _ => rfl) rfl (fun _ _ => rfl) (fun _ _ => rfl)
        (fun _ => rfl)
      refine ⟨⟨ext, by simpa using hext⟩, ?_, ?_,
        fun hnone => absurd hnone (by simp)⟩
      · rw [hA]
        simp [List.countP_cons, isDeleteDec]
      · rw [hB]
        simp [List.countP_cons, isCreateDec]

/-- A handler caching a decoder negotiated for codec 3. -/
def dec3 : decoder_t := { fmt_in := { i_codec := 3, video := fmtZ }, fmt_out := es_null }

def hW3 : image_handler_t := { p_dec := some dec3, p_filter := none }

def callW : block_t × video_format_t × video_format_t := (blk0, fmtIn1, fmtZ)

/-- Witness for C2: two same-codec reads create the decoder once; a read on a
codec-3 binding with a codec-1 request deletes and recreates it once. -/
theorem image_C2_witness :
    ((runReads envW handler0 [callW, callW]).2.countP isCreateDec = 1 ∧
     (runReads envW handler0 [callW, callW]).2.countP isDeleteDec = 0) ∧
    ((∃ tl, (ImageRead envW hW3 blk0 fmtIn1 fmtZ).trace =
        Event.deleteDecoder :: Event.createDecoder fmtIn1.i_chroma :: tl) ∧
     (ImageRead envW hW3 blk0 fmtIn1 fmtZ).trace.countP isDeleteDec = 1 ∧
     (ImageRead envW hW3 blk0 fmtIn1 fmtZ).trace.countP isCreateDec = 1 ∧
     (CreateDecoder envW fmtIn1 = none →
        (ImageRead envW hW3 blk0 fmtIn1 fmtZ).pic = none ∧
        (ImageRead envW hW3 blk0 fmtIn1 fmtZ).handler.p_dec = none)) :=
  ⟨(image_C2 envW).1 handler0 1 callW [callW] rfl (by decide)
     (by simp [callW, fmtIn1]),
   (image_C2 envW).2 hW3 dec3 blk0 fmtIn1 fmtZ rfl (by decide)⟩
